import Mathlib

set_option linter.unusedVariables false

/-!
Shallow embedding of the two variants of the sample non-linear VPAID ad:
`src/vpaid/VpaidNonLinear.js` (namespace `Vpaid`) and `src/unnamed/part_000`
(namespace `Part0`).  Machinery that is textually identical in the two files
(the event table, `callEvent_`, emission results) is defined once at top level.

JavaScript objects used as dictionaries are modelled as functions
`String → Option _`; a key mapped to `none` is absent, a key mapped to
`some none` is present with value `null` (the distinction matters because
`callEvent_` tests presence with the `in` operator, which is true for a
`null` entry).  DOM elements are modelled by the fields the code touches;
callbacks are opaque `Nat` identifiers paired with the context they were
bound to.  A method returns its new state, the list of event dispatches it
performed or scheduled, and an optional JavaScript runtime error (a thrown
`TypeError`/`ReferenceError` aborts the rest of the method body, which the
definitions reflect by short-circuiting).
-/

/-- A callback stored in the event table: the result of
`aCallback.bind(aContext)` in `subscribe`.  The function and the context are
opaque identifiers. -/
structure BoundCallback where
  fn : Nat
  ctx : Nat
  deriving DecidableEq, Repr

/-- The `eventsCallbacks_` object: `none` = key absent, `some none` = key
present with value `null` (what `unsubscribe` leaves), `some (some cb)` =
registered callback. -/
abbrev EventTable := String → Option (Option BoundCallback)

/-- The empty `eventsCallbacks_` object `{}` of the constructor. -/
def emptyEventTable : EventTable := fun _ => none

/-- Outcome of one `callEvent_(eventType)` call. -/
inductive EmitResult where
  /-- `eventType in this.eventsCallbacks_` is false: nothing happens. -/
  | noEntry : EmitResult
  /-- The stored callback is invoked. -/
  | invoked (cb : BoundCallback) : EmitResult
  /-- The key is present but maps to `null` (after `unsubscribe`), so
  `this.eventsCallbacks_[eventType]()` calls `null` and throws a TypeError. -/
  | typeError : EmitResult
  deriving DecidableEq, Repr

/-- `callEvent_` (identical in both source files):
`if (eventType in this.eventsCallbacks_) this.eventsCallbacks_[eventType]();`.
The `in` operator tests key presence, not truthiness, so a `null` entry is
looked up and called, which throws. -/
def callEvent_ (tbl : EventTable) (eventType : String) : EmitResult :=
  match tbl eventType with
  | none => .noEntry
  | some none => .typeError
  | some (some cb) => .invoked cb

/-- Whether the dispatch attempt threw a TypeError. -/
def EmitResult.throws : EmitResult → Bool
  | .typeError => true
  | _ => false

/-- The callbacks actually invoked by one dispatch attempt (at most one). -/
def EmitResult.invocations : EmitResult → List BoundCallback
  | .invoked cb => [cb]
  | _ => []

/-- A JavaScript runtime error thrown while a method body runs. -/
inductive JsError where
  | typeError : JsError
  | referenceError : JsError
  deriving DecidableEq, Repr

/-- One observable event action of a method: a synchronous `callEvent_`
dispatch, or a dispatch scheduled through `setTimeout`. -/
inductive Ev where
  | emit (name : String) (result : EmitResult) : Ev
  | scheduled (delayMs : Nat) (name : String) : Ev
  deriving DecidableEq, Repr

/-- Result of running one method body: the state it leaves behind, the
dispatches it performed or scheduled (in order), and the error it threw, if
any.  State mutations made before a throw are kept, as in JavaScript. -/
structure MethodResult (σ : Type) where
  state : σ
  trace : List Ev
  error : Option JsError

/-- Event names dispatched synchronously in a trace, in order. -/
def syncNames (tr : List Ev) : List String :=
  tr.filterMap fun e =>
    match e with
    | .emit n _ => some n
    | .scheduled _ _ => none

/-- Event names whose dispatch was deferred through `setTimeout`, in order. -/
def schedNames (tr : List Ev) : List String :=
  tr.filterMap fun e =>
    match e with
    | .emit _ _ => none
    | .scheduled _ n => some n

/-- Delivery order under the JavaScript event loop: all synchronous
dispatches complete before any timer callback fires. -/
def deliveryOrder (tr : List Ev) : List String :=
  syncNames tr ++ schedNames tr

/-- Whether the trace contains a synchronous dispatch of the named event. -/
def emitsName (tr : List Ev) (name : String) : Bool :=
  tr.any fun e =>
    match e with
    | .emit n _ => n == name
    | .scheduled _ _ => false

/-- One entry of the `videos` list of the ad parameters. -/
structure Video where
  url : String
  mimetype : String
  deriving DecidableEq, Repr

/-- The video element handed over in `environmentVars.videoSlot`.  `canPlay`
is the host-determined `canPlayType` response; `srcWrites` records every
`setAttribute('src', …)` call in order, `src` the current value. -/
structure VideoSlot where
  canPlay : String → String
  src : Option String
  srcWrites : List String
  widthAttr : Option Int
  heightAttr : Option Int
  playing : Bool
  endedListeners : Nat

/-- The parsed `AdParameters` JSON payload.  The fields are optional because
the code applies `|| []` defaults at the use sites. -/
structure AdParameters where
  overlays : Option (List String)
  videos : Option (List Video)

namespace Vpaid

/-- The `attributes_` bag of `src/vpaid/VpaidNonLinear.js`.  JavaScript
numbers are modelled as integers; none of the verified claims depends on
fractional values. -/
structure Attributes where
  companions : String
  desiredBitrate : Int
  duration : Int
  expanded : Bool
  height : Int
  icons : String
  linear : Bool
  skippableState : Bool
  viewMode : String
  width : Int
  volume : Int
  deriving DecidableEq, Repr

/-- The fields assigned by the `VpaidNonLinear` constructor and the methods
of `src/vpaid/VpaidNonLinear.js`.  `slot_` is the child list of the slot div
(img `src` urls); `videoSlot_` stays unassigned (`none`) until `initAd`. -/
structure AdState where
  slot_ : Option (List String)
  videoSlot_ : Option VideoSlot
  eventsCallbacks_ : EventTable
  attributes_ : Attributes
  startTime_ : Int
  imageUrls_ : List String
  videos_ : List Video

/-- The attribute values installed by the constructor. -/
def initialAttributes : Attributes :=
  { companions := "", desiredBitrate := 256, duration := 10, expanded := false,
    height := 0, icons := "", linear := false, skippableState := false,
    viewMode := "normal", width := 0, volume := 50 }

/-- `new VpaidNonLinear()`: the state built by the constructor. -/
def VpaidNonLinear : AdState :=
  { slot_ := none, videoSlot_ := none, eventsCallbacks_ := emptyEventTable,
    attributes_ := initialAttributes, startTime_ := 0, imageUrls_ := [],
    videos_ := [] }

/-- `handshakeVersion(version)`: returns the string literal, touches
nothing. -/
def handshakeVersion (s : AdState) (version : String) : AdState × String :=
  (s, "2.0")

/-- `initAd`: stores width/height/viewMode/desiredBitrate in `attributes_`,
stores the environment handles, parses `AdParameters` (modelled as the
already-parsed value; the claims do not concern malformed JSON), applies the
`|| []` defaults, and fires `AdLoaded`. -/
def initAd (s : AdState) (width height : Int) (viewMode : String)
    (desiredBitrate : Int) (slot : List String) (videoSlot : VideoSlot)
    (data : AdParameters) : MethodResult AdState :=
  let s1 : AdState :=
    { s with
      attributes_ :=
        { s.attributes_ with
          width := width, height := height, viewMode := viewMode,
          desiredBitrate := desiredBitrate },
      slot_ := some slot, videoSlot_ := some videoSlot,
      imageUrls_ := data.overlays.getD [],
      videos_ := data.videos.getD [] }
  let r := callEvent_ s1.eventsCallbacks_ "AdLoaded"
  ⟨s1, [.emit "AdLoaded" r], if r.throws then some .typeError else none⟩

/-- `updateVideoPlayerSize_`: copies the stored width/height onto the video
element attributes; throws if `videoSlot_` was never assigned. -/
def updateVideoPlayerSize_ (s : AdState) : AdState × Option JsError :=
  match s.videoSlot_ with
  | none => (s, some .typeError)
  | some vs =>
      ({ s with
          videoSlot_ :=
            some { vs with
                    widthAttr := some s.attributes_.width,
                    heightAttr := some s.attributes_.height } }, none)

/-- `overlayOnClick_`: fires `AdClickThru`, adds 10 to `duration`, fires
`AdRemainingTimeChange`. -/
def overlayOnClick_ (s : AdState) : MethodResult AdState :=
  let r1 := callEvent_ s.eventsCallbacks_ "AdClickThru"
  if r1.throws then ⟨s, [.emit "AdClickThru" r1], some .typeError⟩
  else
    let s1 : AdState :=
      { s with
        attributes_ :=
          { s.attributes_ with duration := s.attributes_.duration + 10 } }
    let r2 := callEvent_ s1.eventsCallbacks_ "AdRemainingTimeChange"
    ⟨s1, [.emit "AdClickThru" r1, .emit "AdRemainingTimeChange" r2],
      if r2.throws then some .typeError else none⟩

/-- The `for` loop of `overlay2OnClick_`: scan the videos in order; on the
first entry whose `canPlayType` answer is nonempty, set it as `src` and
`break`.  Returns the updated video element and the `foundSource` flag. -/
def overlay2Loop (vs : VideoSlot) : List Video → VideoSlot × Bool
  | [] => (vs, false)
  | v :: rest =>
      if vs.canPlay v.mimetype ≠ "" then
        ({ vs with src := some v.url, srcWrites := vs.srcWrites ++ [v.url] },
          true)
      else overlay2Loop vs rest

/-- `overlay2OnClick_` of `src/vpaid/VpaidNonLinear.js`: set `linear`, fire
`AdLinearChange`, clear the slot children, scan for the first playable video
(with `break`), fire `AdError` only when `foundSource` stayed false, then
attach the `ended` listener and call `play()`. -/
def overlay2OnClick_ (s : AdState) : MethodResult AdState :=
  let s1 : AdState :=
    { s with attributes_ := { s.attributes_ with linear := true } }
  let r1 := callEvent_ s1.eventsCallbacks_ "AdLinearChange"
  if r1.throws then ⟨s1, [.emit "AdLinearChange" r1], some .typeError⟩
  else
    match s1.slot_ with
    | none => ⟨s1, [.emit "AdLinearChange" r1], some .typeError⟩
    | some _ =>
        let s2 : AdState := { s1 with slot_ := some [] }
        match s2.videoSlot_ with
        | none =>
            if s2.videos_.isEmpty then
              let r2 := callEvent_ s2.eventsCallbacks_ "AdError"
              ⟨s2, [.emit "AdLinearChange" r1, .emit "AdError" r2],
                some .typeError⟩
            else ⟨s2, [.emit "AdLinearChange" r1], some .typeError⟩
        | some vs =>
            let res := overlay2Loop vs s2.videos_
            if res.2 then
              let vs2 : VideoSlot :=
                { res.1 with endedListeners := res.1.endedListeners + 1,
                             playing := true }
              ⟨{ s2 with videoSlot_ := some vs2 },
                [.emit "AdLinearChange" r1], none⟩
            else
              let r2 := callEvent_ s2.eventsCallbacks_ "AdError"
              if r2.throws then
                ⟨{ s2 with videoSlot_ := some res.1 },
                  [.emit "AdLinearChange" r1, .emit "AdError" r2],
                  some .typeError⟩
              else
                let vs2 : VideoSlot :=
                  { res.1 with endedListeners := res.1.endedListeners + 1,
                               playing := true }
                ⟨{ s2 with videoSlot_ := some vs2 },
                  [.emit "AdLinearChange" r1, .emit "AdError" r2], none⟩

/-- `startAd`: record the start time, append the two overlay images
(`imageUrls_[0] || ''` and `imageUrls_[1] || ''`) to the slot, fire
`AdStarted`.  The style-sheet insertion has no observable effect on the
modelled state. -/
def startAd (s : AdState) (now : Int) : MethodResult AdState :=
  let s1 : AdState := { s with startTime_ := now }
  match s1.slot_ with
  | none => ⟨s1, [], some .typeError⟩
  | some children =>
      let s2 : AdState :=
        { s1 with
          slot_ :=
            some (children ++
              [s1.imageUrls_.getD 0 "", s1.imageUrls_.getD 1 ""]) }
      let r := callEvent_ s2.eventsCallbacks_ "AdStarted"
      ⟨s2, [.emit "AdStarted" r], if r.throws then some .typeError else none⟩

/-- `stopAd`: fires nothing synchronously; `setTimeout(callback, 75,
['AdStopped'])` schedules the dispatch 75 ms later.  (The extra argument is
the array `['AdStopped']`; property lookup coerces it to the string
`"AdStopped"`, so the deferred call dispatches that event.) -/
def stopAd (s : AdState) : MethodResult AdState :=
  ⟨s, [.scheduled 75 "AdStopped"], none⟩

/-- `setAdVolume(value)`: store the volume, fire `AdVolumeChange`. -/
def setAdVolume (s : AdState) (value : Int) : MethodResult AdState :=
  let s1 : AdState :=
    { s with attributes_ := { s.attributes_ with volume := value } }
  let r := callEvent_ s1.eventsCallbacks_ "AdVolumeChange"
  ⟨s1, [.emit "AdVolumeChange" r], if r.throws then some .typeError else none⟩

/-- `resizeAd`: store width/height/viewMode, resize the video element, fire
`AdSizeChange`. -/
def resizeAd (s : AdState) (width height : Int) (viewMode : String) :
    MethodResult AdState :=
  let s1 : AdState :=
    { s with
      attributes_ :=
        { s.attributes_ with
          width := width, height := height, viewMode := viewMode } }
  match updateVideoPlayerSize_ s1 with
  | (s2, some e) => ⟨s2, [], some e⟩
  | (s2, none) =>
      let r := callEvent_ s2.eventsCallbacks_ "AdSizeChange"
      ⟨s2, [.emit "AdSizeChange" r],
        if r.throws then some .typeError else none⟩

/-- `pauseAd`: pause the video element, fire `AdPaused`. -/
def pauseAd (s : AdState) : MethodResult AdState :=
  match s.videoSlot_ with
  | none => ⟨s, [], some .typeError⟩
  | some vs =>
      let s1 : AdState := { s with videoSlot_ := some { vs with playing := false } }
      let r := callEvent_ s1.eventsCallbacks_ "AdPaused"
      ⟨s1, [.emit "AdPaused" r], if r.throws then some .typeError else none⟩

/-- `resumeAd`: play the video element, fire `AdResumed`. -/
def resumeAd (s : AdState) : MethodResult AdState :=
  match s.videoSlot_ with
  | none => ⟨s, [], some .typeError⟩
  | some vs =>
      let s1 : AdState := { s with videoSlot_ := some { vs with playing := true } }
      let r := callEvent_ s1.eventsCallbacks_ "AdResumed"
      ⟨s1, [.emit "AdResumed" r], if r.throws then some .typeError else none⟩

/-- `expandAd` of `src/vpaid/VpaidNonLinear.js`: sets `expanded` to true and
then evaluates `elem.requestFullscreen`, but the identifier `elem` is
declared nowhere in the file (or the repository), so the method throws a
ReferenceError before `callEvent_('AdExpanded')` is reached. -/
def expandAd (s : AdState) : MethodResult AdState :=
  ⟨{ s with attributes_ := { s.attributes_ with expanded := true } },
    [], some .referenceError⟩

/-- `getAdExpanded`. -/
def getAdExpanded (s : AdState) : Bool := s.attributes_.expanded

/-- `getAdSkippableState`. -/
def getAdSkippableState (s : AdState) : Bool := s.attributes_.skippableState

/-- `collapseAd`: sets `expanded` to false; fires no event. -/
def collapseAd (s : AdState) : MethodResult AdState :=
  ⟨{ s with attributes_ := { s.attributes_ with expanded := false } },
    [], none⟩

/-- `skipAd`: fires `AdSkipped` only when `skippableState` is true;
otherwise does nothing. -/
def skipAd (s : AdState) : MethodResult AdState :=
  if s.attributes_.skippableState then
    let r := callEvent_ s.eventsCallbacks_ "AdSkipped"
    ⟨s, [.emit "AdSkipped" r], if r.throws then some .typeError else none⟩
  else ⟨s, [], none⟩

/-- `subscribe(aCallback, eventName, aContext)`: stores
`aCallback.bind(aContext)` under `eventName`, overwriting any previous
entry. -/
def subscribe (s : AdState) (aCallback : Nat) (eventName : String)
    (aContext : Nat) : AdState :=
  { s with
    eventsCallbacks_ := fun n =>
      if n = eventName then some (some ⟨aCallback, aContext⟩)
      else s.eventsCallbacks_ n }

/-- `unsubscribe(eventName)`: sets the entry to `null`; the key stays
present. -/
def unsubscribe (s : AdState) (eventName : String) : AdState :=
  { s with
    eventsCallbacks_ := fun n =>
      if n = eventName then some none else s.eventsCallbacks_ n }

/-- `getAdWidth`. -/
def getAdWidth (s : AdState) : Int := s.attributes_.width

/-- `getAdHeight`. -/
def getAdHeight (s : AdState) : Int := s.attributes_.height

/-- `getAdDuration`. -/
def getAdDuration (s : AdState) : Int := s.attributes_.duration

/-- `getAdVolume`. -/
def getAdVolume (s : AdState) : Int := s.attributes_.volume

/-- `getAdCompanions`. -/
def getAdCompanions (s : AdState) : String := s.attributes_.companions

/-- `getAdIcons`. -/
def getAdIcons (s : AdState) : String := s.attributes_.icons

/-- `getAdLinear`. -/
def getAdLinear (s : AdState) : Bool := s.attributes_.linear

end Vpaid

namespace Part0

/-- The `attributes_` bag of `src/unnamed/part_000`.  Identical shape to the
other variant; only the initial `volume` differs (`1.0`, modelled as the
integer 1 — no claim depends on fractional volumes). -/
structure Attributes where
  companions : String
  desiredBitrate : Int
  duration : Int
  expanded : Bool
  height : Int
  icons : String
  linear : Bool
  skippableState : Bool
  viewMode : String
  width : Int
  volume : Int
  deriving DecidableEq, Repr

/-- The fields assigned by the constructor of `src/unnamed/part_000`:
compared to the other variant it null-initialises `videoSlot_`, keeps the
quartile bookkeeping, and stores the whole parsed `AdParameters` payload in
`parameters_` instead of copying the two lists out. -/
structure AdState where
  slot_ : Option (List String)
  videoSlot_ : Option VideoSlot
  eventsCallbacks_ : EventTable
  attributes_ : Attributes
  startTime_ : Int
  quartileEvents_ : List (String × Int)
  nextQuartileIndex_ : Nat
  parameters_ : AdParameters

/-- The attribute values installed by the constructor. -/
def initialAttributes : Attributes :=
  { companions := "", desiredBitrate := 256, duration := 10, expanded := false,
    height := 0, icons := "", linear := false, skippableState := false,
    viewMode := "normal", width := 0, volume := 1 }

/-- `new VpaidNonLinear()` for `src/unnamed/part_000`. -/
def VpaidNonLinear : AdState :=
  { slot_ := none, videoSlot_ := none, eventsCallbacks_ := emptyEventTable,
    attributes_ := initialAttributes, startTime_ := 0,
    quartileEvents_ :=
      [("AdImpression", 0), ("AdVideoStart", 0), ("AdVideoFirstQuartile", 25),
       ("AdVideoMidpoint", 50), ("AdVideoThirdQuartile", 75),
       ("AdVideoComplete", 100)],
    nextQuartileIndex_ := 0,
    parameters_ := { overlays := none, videos := none } }

/-- `handshakeVersion(version)`: returns the string literal, touches
nothing. -/
def handshakeVersion (s : AdState) (version : String) : AdState × String :=
  (s, "2.0")

/-- `initAd` of `src/unnamed/part_000`: stores the size attributes and the
environment handles, keeps the whole parsed `AdParameters` payload, fires
`AdLoaded`. -/
def initAd (s : AdState) (width height : Int) (viewMode : String)
    (desiredBitrate : Int) (slot : List String) (videoSlot : VideoSlot)
    (data : AdParameters) : MethodResult AdState :=
  let s1 : AdState :=
    { s with
      attributes_ :=
        { s.attributes_ with
          width := width, height := height, viewMode := viewMode,
          desiredBitrate := desiredBitrate },
      slot_ := some slot, videoSlot_ := some videoSlot,
      parameters_ := data }
  let r := callEvent_ s1.eventsCallbacks_ "AdLoaded"
  ⟨s1, [.emit "AdLoaded" r], if r.throws then some .typeError else none⟩

/-- `startAd` of `src/unnamed/part_000`: record the start time, append the
two overlay images (`overlays[0] || ''`, `overlays[1] || ''` where
`overlays = this.parameters_.overlays || []`), fire `AdStarted`. -/
def startAd (s : AdState) (now : Int) : MethodResult AdState :=
  let s1 : AdState := { s with startTime_ := now }
  match s1.slot_ with
  | none => ⟨s1, [], some .typeError⟩
  | some children =>
      let overlays := s1.parameters_.overlays.getD []
      let s2 : AdState :=
        { s1 with
          slot_ :=
            some (children ++ [overlays.getD 0 "", overlays.getD 1 ""]) }
      let r := callEvent_ s2.eventsCallbacks_ "AdStarted"
      ⟨s2, [.emit "AdStarted" r], if r.throws then some .typeError else none⟩

/-- `nonLinearAdClick`: inlines the same presence test as `callEvent_` and
invokes the `AdClickThru` callback (with click-through arguments, which the
model does not track). -/
def nonLinearAdClick (s : AdState) : MethodResult AdState :=
  let r := callEvent_ s.eventsCallbacks_ "AdClickThru"
  ⟨s, [.emit "AdClickThru" r], if r.throws then some .typeError else none⟩

/-- The `for` loop of `linearButtonClick`: there is no `break`, so EVERY
entry whose `canPlayType` answer is nonempty has its url written to `src`
(later playable entries overwrite earlier ones) and triggers
`addEventListener`/`play()` again. -/
def linearLoop (vs : VideoSlot) : List Video → VideoSlot
  | [] => vs
  | v :: rest =>
      if vs.canPlay v.mimetype ≠ "" then
        linearLoop
          { vs with
            src := some v.url, srcWrites := vs.srcWrites ++ [v.url],
            endedListeners := vs.endedListeners + 1, playing := true } rest
      else linearLoop vs rest

/-- `linearButtonClick` of `src/unnamed/part_000`: set `linear`, fire
`AdLinearChange`, clear the slot children, run the break-less scan over
`this.parameters_.videos || []`, and then fire `AdError` unconditionally
(the `callEvent_` call sits after the loop with no `foundSource` guard,
although the comment above it reads "Haven't found a video, so error."). -/
def linearButtonClick (s : AdState) : MethodResult AdState :=
  let s1 : AdState :=
    { s with attributes_ := { s.attributes_ with linear := true } }
  let r1 := callEvent_ s1.eventsCallbacks_ "AdLinearChange"
  if r1.throws then ⟨s1, [.emit "AdLinearChange" r1], some .typeError⟩
  else
    match s1.slot_ with
    | none => ⟨s1, [.emit "AdLinearChange" r1], some .typeError⟩
    | some _ =>
        let s2 : AdState := { s1 with slot_ := some [] }
        let videos := s2.parameters_.videos.getD []
        match s2.videoSlot_ with
        | none =>
            if videos.isEmpty then
              let r2 := callEvent_ s2.eventsCallbacks_ "AdError"
              ⟨s2, [.emit "AdLinearChange" r1, .emit "AdError" r2],
                if r2.throws then some .typeError else none⟩
            else ⟨s2, [.emit "AdLinearChange" r1], some .typeError⟩
        | some vs =>
            let s3 : AdState := { s2 with videoSlot_ := some (linearLoop vs videos) }
            let r2 := callEvent_ s3.eventsCallbacks_ "AdError"
            ⟨s3, [.emit "AdLinearChange" r1, .emit "AdError" r2],
              if r2.throws then some .typeError else none⟩

/-- `stopAd` of `src/unnamed/part_000` (identical to the other variant):
fires nothing synchronously, schedules the `AdStopped` dispatch 75 ms
later. -/
def stopAd (s : AdState) : MethodResult AdState :=
  ⟨s, [.scheduled 75 "AdStopped"], none⟩

/-- `resizeAd` of `src/unnamed/part_000`: stores the size attributes and
then calls `this.updateVideoPlayerSize_()`, a method this file never
defines, so the call throws a TypeError before `AdSizeChange` is fired. -/
def resizeAd (s : AdState) (width height : Int) (viewMode : String) :
    MethodResult AdState :=
  let s1 : AdState :=
    { s with
      attributes_ :=
        { s.attributes_ with
          width := width, height := height, viewMode := viewMode } }
  ⟨s1, [], some .typeError⟩

/-- `pauseAd`: pause the video element, fire `AdPaused`. -/
def pauseAd (s : AdState) : MethodResult AdState :=
  match s.videoSlot_ with
  | none => ⟨s, [], some .typeError⟩
  | some vs =>
      let s1 : AdState := { s with videoSlot_ := some { vs with playing := false } }
      let r := callEvent_ s1.eventsCallbacks_ "AdPaused"
      ⟨s1, [.emit "AdPaused" r], if r.throws then some .typeError else none⟩

/-- `resumeAd` of `src/unnamed/part_000`: play the video element, fire
`AdPlaying` (not `AdResumed`). -/
def resumeAd (s : AdState) : MethodResult AdState :=
  match s.videoSlot_ with
  | none => ⟨s, [], some .typeError⟩
  | some vs =>
      let s1 : AdState := { s with videoSlot_ := some { vs with playing := true } }
      let r := callEvent_ s1.eventsCallbacks_ "AdPlaying"
      ⟨s1, [.emit "AdPlaying" r], if r.throws then some .typeError else none⟩

/-- `expandAd` of `src/unnamed/part_000`: sets `expanded` to true and fires
`AdExpanded`. -/
def expandAd (s : AdState) : MethodResult AdState :=
  let s1 : AdState :=
    { s with attributes_ := { s.attributes_ with expanded := true } }
  let r := callEvent_ s1.eventsCallbacks_ "AdExpanded"
  ⟨s1, [.emit "AdExpanded" r], if r.throws then some .typeError else none⟩

/-- `collapseAd`: sets `expanded` to false; fires no event. -/
def collapseAd (s : AdState) : MethodResult AdState :=
  ⟨{ s with attributes_ := { s.attributes_ with expanded := false } },
    [], none⟩

/-- `skipAd`: fires `AdSkipped` only when `skippableState` is true;
otherwise does nothing. -/
def skipAd (s : AdState) : MethodResult AdState :=
  if s.attributes_.skippableState then
    let r := callEvent_ s.eventsCallbacks_ "AdSkipped"
    ⟨s, [.emit "AdSkipped" r], if r.throws then some .typeError else none⟩
  else ⟨s, [], none⟩

/-- `subscribe(aCallback, eventName, aContext)`: stores
`aCallback.bind(aContext)` under `eventName`, overwriting any previous
entry. -/
def subscribe (s : AdState) (aCallback : Nat) (eventName : String)
    (aContext : Nat) : AdState :=
  { s with
    eventsCallbacks_ := fun n =>
      if n = eventName then some (some ⟨aCallback, aContext⟩)
      else s.eventsCallbacks_ n }

/-- `unsubscribe(eventName)`: sets the entry to `null`; the key stays
present. -/
def unsubscribe (s : AdState) (eventName : String) : AdState :=
  { s with
    eventsCallbacks_ := fun n =>
      if n = eventName then some none else s.eventsCallbacks_ n }

/-- `getAdLinear`. -/
def getAdLinear (s : AdState) : Bool := s.attributes_.linear

/-- `getAdWidth`. -/
def getAdWidth (s : AdState) : Int := s.attributes_.width

/-- `getAdHeight`. -/
def getAdHeight (s : AdState) : Int := s.attributes_.height

/-- `getAdExpanded`. -/
def getAdExpanded (s : AdState) : Bool := s.attributes_.expanded

/-- `getAdSkippableState`. -/
def getAdSkippableState (s : AdState) : Bool := s.attributes_.skippableState

/-- `getAdDuration`. -/
def getAdDuration (s : AdState) : Int := s.attributes_.duration

/-- `getAdVolume`. -/
def getAdVolume (s : AdState) : Int := s.attributes_.volume

/-- `setAdVolume(value)`: store the volume, fire `AdVolumeChange`. -/
def setAdVolume (s : AdState) (value : Int) : MethodResult AdState :=
  let s1 : AdState :=
    { s with attributes_ := { s.attributes_ with volume := value } }
  let r := callEvent_ s1.eventsCallbacks_ "AdVolumeChange"
  ⟨s1, [.emit "AdVolumeChange" r], if r.throws then some .typeError else none⟩

/-- `getAdCompanions`. -/
def getAdCompanions (s : AdState) : String := s.attributes_.companions

/-- `getAdIcons`. -/
def getAdIcons (s : AdState) : String := s.attributes_.icons

end Part0

namespace Vpaid

/-- One invocation of a public method (or of one of the click handlers that
`startAd` wires to the overlays) of `src/vpaid/VpaidNonLinear.js`.  The
getter methods only read the state (they are the pure `getAd*` functions
above); `getterCall` stands for any of them. -/
inductive Op where
  | handshakeVersion (version : String) : Op
  | initAd (width height : Int) (viewMode : String) (desiredBitrate : Int)
      (slot : List String) (videoSlot : VideoSlot) (data : AdParameters) : Op
  | startAd (now : Int) : Op
  | stopAd : Op
  | setAdVolume (value : Int) : Op
  | resizeAd (width height : Int) (viewMode : String) : Op
  | pauseAd : Op
  | resumeAd : Op
  | expandAd : Op
  | collapseAd : Op
  | skipAd : Op
  | subscribe (aCallback : Nat) (eventName : String) (aContext : Nat) : Op
  | unsubscribe (eventName : String) : Op
  | overlayClick : Op
  | overlay2Click : Op
  | getterCall : Op

/-- Dispatch one method invocation to its definition. -/
def applyOp (s : AdState) : Op → MethodResult AdState
  | .handshakeVersion v => ⟨(handshakeVersion s v).1, [], none⟩
  | .initAd w h vm br slot vslot data => initAd s w h vm br slot vslot data
  | .startAd now => startAd s now
  | .stopAd => stopAd s
  | .setAdVolume v => setAdVolume s v
  | .resizeAd w h vm => resizeAd s w h vm
  | .pauseAd => pauseAd s
  | .resumeAd => resumeAd s
  | .expandAd => expandAd s
  | .collapseAd => collapseAd s
  | .skipAd => skipAd s
  | .subscribe cb n ctx => ⟨subscribe s cb n ctx, [], none⟩
  | .unsubscribe n => ⟨unsubscribe s n, [], none⟩
  | .overlayClick => overlayOnClick_ s
  | .overlay2Click => overlay2OnClick_ s
  | .getterCall => ⟨s, [], none⟩

/-- Run a sequence of method invocations from a state. -/
def runOps (s : AdState) : List Op → AdState
  | [] => s
  | op :: rest => runOps (applyOp s op).state rest

end Vpaid

namespace Part0

/-- One invocation of a public method (or of one of the click handlers that
`startAd` wires to the overlays) of `src/unnamed/part_000`. -/
inductive Op where
  | handshakeVersion (version : String) : Op
  | initAd (width height : Int) (viewMode : String) (desiredBitrate : Int)
      (slot : List String) (videoSlot : VideoSlot) (data : AdParameters) : Op
  | startAd (now : Int) : Op
  | stopAd : Op
  | setAdVolume (value : Int) : Op
  | resizeAd (width height : Int) (viewMode : String) : Op
  | pauseAd : Op
  | resumeAd : Op
  | expandAd : Op
  | collapseAd : Op
  | skipAd : Op
  | subscribe (aCallback : Nat) (eventName : String) (aContext : Nat) : Op
  | unsubscribe (eventName : String) : Op
  | nonLinearClick : Op
  | linearClick : Op
  | getterCall : Op

/-- Dispatch one method invocation to its definition. -/
def applyOp (s : AdState) : Op → MethodResult AdState
  | .handshakeVersion v => ⟨(handshakeVersion s v).1, [], none⟩
  | .initAd w h vm br slot vslot data => initAd s w h vm br slot vslot data
  | .startAd now => startAd s now
  | .stopAd => stopAd s
  | .setAdVolume v => setAdVolume s v
  | .resizeAd w h vm => resizeAd s w h vm
  | .pauseAd => pauseAd s
  | .resumeAd => resumeAd s
  | .expandAd => expandAd s
  | .collapseAd => collapseAd s
  | .skipAd => skipAd s
  | .subscribe cb n ctx => ⟨subscribe s cb n ctx, [], none⟩
  | .unsubscribe n => ⟨unsubscribe s n, [], none⟩
  | .nonLinearClick => nonLinearAdClick s
  | .linearClick => linearButtonClick s
  | .getterCall => ⟨s, [], none⟩

/-- Run a sequence of method invocations from a state. -/
def runOps (s : AdState) : List Op → AdState
  | [] => s
  | op :: rest => runOps (applyOp s op).state rest

end Part0

/-! Concrete fixtures used to evaluate the code on explicit inputs. -/

/-- A video element whose `canPlayType` answers `"probably"` for every mime
type: every video entry is playable. -/
def allPlayableSlot : VideoSlot :=
  { canPlay := fun _ => "probably", src := none, srcWrites := [],
    widthAttr := none, heightAttr := none, playing := false,
    endedListeners := 0 }

/-- A two-entry video descriptor list. -/
def demoVideos : List Video :=
  [⟨"http://example.com/v.mp4", "video/mp4"⟩,
   ⟨"http://example.com/v.webm", "video/webm"⟩]

/-- A freshly constructed `src/unnamed/part_000` ad after `initAd` with
`demoVideos` in its ad parameters and `allPlayableSlot` as video element. -/
def part0Demo : Part0.AdState :=
  (Part0.initAd Part0.VpaidNonLinear 300 200 "normal" 256 [] allPlayableSlot
    { overlays := none, videos := some demoVideos }).state

/-- The event table obtained by subscribing a callback for `"AdStarted"` on
a fresh `src/vpaid` ad and then unsubscribing that event name. -/
def c1Table : EventTable :=
  (Vpaid.unsubscribe
    (Vpaid.subscribe Vpaid.VpaidNonLinear 7 "AdStarted" 3)
    "AdStarted").eventsCallbacks_

/-- Whether some entry of the video list has a mime type the given video
element reports as playable. -/
def hasPlayable (vs : VideoSlot) (videos : List Video) : Bool :=
  videos.any fun v => vs.canPlay v.mimetype != ""

/-! Claim theorems. -/

/-- Claim C1 (refuted; the code contradicts its own comment "Calls an event
if there is a callback"): after `unsubscribe(eventName)`, the key is still
present and maps to `null`, so `eventType in this.eventsCallbacks_` is true
and `callEvent_` calls `null`, throwing a TypeError.  No callback is
invoked, but the dispatch is an error, not a silent no-op. -/
theorem C1_unsubscribe_then_emit_throws :
    callEvent_ c1Table "AdStarted" = .typeError ∧
    (callEvent_ c1Table "AdStarted").invocations = [] ∧
    (callEvent_ c1Table "AdStarted").throws = true := by
  exact ⟨rfl, rfl, rfl⟩

/-- Claim C2 (refuted for `src/unnamed/part_000`; the code contradicts its
own comment "Haven't found a video, so error."): `linearButtonClick` fires
`AdError` unconditionally after the scan, even when a playable entry exists
and was set as the source.  (The `src/vpaid` variant guards the emission
with its `foundSource` flag.) -/
theorem C2_part0_adError_despite_playable_source :
    hasPlayable allPlayableSlot demoVideos = true ∧
    emitsName (Part0.linearButtonClick part0Demo).trace "AdError" = true ∧
    (Part0.linearButtonClick part0Demo).state.videoSlot_.map VideoSlot.src =
      some (some "http://example.com/v.webm") := by
  exact ⟨rfl, rfl, rfl⟩

/-- Claim C3 (refuted for `src/unnamed/part_000`; the code contradicts its
own comment "Choose the first video with a supported mimetype."): the scan
has no `break`, so every playable entry has its url written to `src` and
the LAST playable entry ends up as the active source, not the first. -/
theorem C3_part0_sets_later_playable_source :
    (Part0.linearButtonClick part0Demo).state.videoSlot_.map
        VideoSlot.srcWrites =
      some ["http://example.com/v.mp4", "http://example.com/v.webm"] ∧
    (Part0.linearButtonClick part0Demo).state.videoSlot_.map VideoSlot.src =
      some (some "http://example.com/v.webm") ∧
    demoVideos.get? 1 = some ⟨"http://example.com/v.webm", "video/webm"⟩ := by
  exact ⟨rfl, rfl, rfl⟩

/-- Claim C4 (refuted for `src/vpaid/VpaidNonLinear.js`): `expandAd` sets
the `expanded` flag but then dereferences the undeclared identifier `elem`,
so it throws a ReferenceError and `AdExpanded` is never fired.  (The
`src/unnamed/part_000` variant fires it, as the last conjunct shows.) -/
theorem C4_vpaid_expandAd_throws_before_AdExpanded :
    (Vpaid.expandAd Vpaid.VpaidNonLinear).state.attributes_.expanded = true ∧
    (Vpaid.expandAd Vpaid.VpaidNonLinear).trace = [] ∧
    (Vpaid.expandAd Vpaid.VpaidNonLinear).error = some .referenceError ∧
    emitsName (Part0.expandAd Part0.VpaidNonLinear).trace "AdExpanded" =
      true := by
  exact ⟨rfl, rfl, rfl, rfl⟩

/-- Claim C5 (confirmed): in both variants `handshakeVersion` returns the
string `"2.0"` whatever the input and leaves the state untouched. -/
theorem C5_handshakeVersion_constant (s : Vpaid.AdState) (t : Part0.AdState)
    (v w : String) :
    Vpaid.handshakeVersion s v = (s, "2.0") ∧
    Part0.handshakeVersion t w = (t, "2.0") := by
  exact ⟨rfl, rfl⟩

/-- Claim C6 (confirmed): after `initAd(width, height, …)` the getters
return exactly the values passed in, for every integer input including
negative values — no validation or clamping happens, in either variant. -/
theorem C6_initAd_width_height_roundtrip (s : Vpaid.AdState)
    (t : Part0.AdState) (width height : Int) (viewMode : String)
    (desiredBitrate : Int) (slot : List String) (videoSlot : VideoSlot)
    (data : AdParameters) :
    Vpaid.getAdWidth
        (Vpaid.initAd s width height viewMode desiredBitrate slot videoSlot
          data).state = width ∧
    Vpaid.getAdHeight
        (Vpaid.initAd s width height viewMode desiredBitrate slot videoSlot
          data).state = height ∧
    Part0.getAdWidth
        (Part0.initAd t width height viewMode desiredBitrate slot videoSlot
          data).state = width ∧
    Part0.getAdHeight
        (Part0.initAd t width height viewMode desiredBitrate slot videoSlot
          data).state = height := by
  exact ⟨rfl, rfl, rfl, rfl⟩

/-- Claim C7 (confirmed): `subscribe` stores the callback bound to its
context, overwriting any earlier registration for that event name; a
subsequent dispatch invokes exactly the most recently registered callback,
once, with its own context — never an earlier registration.  The starting
state is arbitrary, so the statement covers any number of prior
`subscribe` calls. -/
theorem C7_subscribe_latest_callback_invoked (s : Vpaid.AdState)
    (t : Part0.AdState) (cb1 ctx1 cb2 ctx2 : Nat) (n : String) :
    (callEvent_
        (Vpaid.subscribe (Vpaid.subscribe s cb1 n ctx1) cb2 n
            ctx2).eventsCallbacks_ n).invocations = [⟨cb2, ctx2⟩] ∧
    (callEvent_
        (Part0.subscribe (Part0.subscribe t cb1 n ctx1) cb2 n
            ctx2).eventsCallbacks_ n).invocations = [⟨cb2, ctx2⟩] := by
  constructor <;>
    simp [Vpaid.subscribe, Part0.subscribe, callEvent_,
      EmitResult.invocations]

/-- Claim C8 (confirmed): in both variants `skipAd` dispatches `AdSkipped`
exactly when `skippableState` is true at the time of the call; when it is
false the trace is empty; in every case the state is returned unchanged. -/
theorem C8_skipAd_iff_skippableState (s : Vpaid.AdState)
    (t : Part0.AdState) :
    (Vpaid.skipAd s).state = s ∧
    emitsName (Vpaid.skipAd s).trace "AdSkipped" =
      s.attributes_.skippableState ∧
    (Vpaid.skipAd s).trace.isEmpty = !s.attributes_.skippableState ∧
    (Part0.skipAd t).state = t ∧
    emitsName (Part0.skipAd t).trace "AdSkipped" =
      t.attributes_.skippableState ∧
    (Part0.skipAd t).trace.isEmpty = !t.attributes_.skippableState := by
  cases hs : s.attributes_.skippableState <;>
    cases ht : t.attributes_.skippableState <;>
      simp [Vpaid.skipAd, Part0.skipAd, emitsName, hs, ht]

/-- Claim C9 (confirmed): in both variants `stopAd` performs no synchronous
dispatch at all — in particular `AdStopped` is not fired during the call —
and only schedules the `AdStopped` dispatch through a 75 ms `setTimeout`;
under the event-loop delivery order, every event dispatched or scheduled
before or during the call is delivered before `AdStopped`. -/
theorem C9_stopAd_defers_AdStopped (s : Vpaid.AdState) (t : Part0.AdState)
    (pre : List Ev) :
    (Vpaid.stopAd s).trace = [.scheduled 75 "AdStopped"] ∧
    syncNames (Vpaid.stopAd s).trace = [] ∧
    (Vpaid.stopAd s).state = s ∧
    deliveryOrder (pre ++ (Vpaid.stopAd s).trace) =
      (syncNames pre ++ schedNames pre) ++ ["AdStopped"] ∧
    (Part0.stopAd t).trace = [.scheduled 75 "AdStopped"] ∧
    deliveryOrder (pre ++ (Part0.stopAd t).trace) =
      (syncNames pre ++ schedNames pre) ++ ["AdStopped"] := by
  refine ⟨rfl, rfl, rfl, ?_, rfl, ?_⟩ <;>
    simp [Vpaid.stopAd, Part0.stopAd, deliveryOrder, syncNames, schedNames,
      List.filterMap_append]

/-- `resizeAd` never changes `skippableState` in the `src/vpaid` variant. -/
theorem vpaidResizeAd_skippable (s : Vpaid.AdState) (width height : Int)
    (viewMode : String) :
    (Vpaid.resizeAd s width height viewMode).state.attributes_.skippableState =
      s.attributes_.skippableState := by
  unfold Vpaid.resizeAd
  cases hv : s.videoSlot_ <;> simp [Vpaid.updateVideoPlayerSize_, hv]

/-- `applyOp` never changes `skippableState` in the `src/vpaid` variant: no
method of the file assigns to that attribute. -/
theorem vpaidApplyOp_preserves_skippableState (s : Vpaid.AdState)
    (op : Vpaid.Op) :
    (Vpaid.applyOp s op).state.attributes_.skippableState =
      s.attributes_.skippableState := by
  cases op <;>
    first
      | (simp only [Vpaid.applyOp]
         apply vpaidResizeAd_skippable)
      | (simp only [Vpaid.applyOp, Vpaid.handshakeVersion, Vpaid.initAd,
          Vpaid.startAd, Vpaid.stopAd, Vpaid.setAdVolume, Vpaid.pauseAd,
          Vpaid.resumeAd, Vpaid.expandAd, Vpaid.collapseAd, Vpaid.skipAd,
          Vpaid.subscribe, Vpaid.unsubscribe, Vpaid.overlayOnClick_,
          Vpaid.overlay2OnClick_] <;>
         (repeat' split) <;> rfl)

/-- `applyOp` never changes `skippableState` in the `src/unnamed/part_000`
variant: no method of the file assigns to that attribute. -/
theorem part0ApplyOp_preserves_skippableState (s : Part0.AdState)
    (op : Part0.Op) :
    (Part0.applyOp s op).state.attributes_.skippableState =
      s.attributes_.skippableState := by
  cases op <;>
    simp only [Part0.applyOp, Part0.handshakeVersion, Part0.initAd,
      Part0.startAd, Part0.stopAd, Part0.setAdVolume, Part0.resizeAd,
      Part0.pauseAd, Part0.resumeAd, Part0.expandAd, Part0.collapseAd,
      Part0.skipAd, Part0.subscribe, Part0.unsubscribe,
      Part0.nonLinearAdClick, Part0.linearButtonClick] <;>
    (repeat' split) <;> rfl

/-- `runOps` never changes `skippableState` in the `src/vpaid` variant. -/
theorem vpaidRunOps_skippableState (ops : List Vpaid.Op)
    (s : Vpaid.AdState) :
    (Vpaid.runOps s ops).attributes_.skippableState =
      s.attributes_.skippableState := by
  induction ops generalizing s with
  | nil => rfl
  | cons op rest ih =>
      rw [Vpaid.runOps, ih, vpaidApplyOp_preserves_skippableState]

/-- `runOps` never changes `skippableState` in the `src/unnamed/part_000`
variant. -/
theorem part0RunOps_skippableState (ops : List Part0.Op)
    (s : Part0.AdState) :
    (Part0.runOps s ops).attributes_.skippableState =
      s.attributes_.skippableState := by
  induction ops generalizing s with
  | nil => rfl
  | cons op rest ih =>
      rw [Part0.runOps, ih, part0ApplyOp_preserves_skippableState]

/-- Claim C10 (confirmed): in both variants the constructor initialises
`skippableState` to false, no method ever assigns to it, so after every
sequence of method invocations on a fresh ad `skippableState` is still
false and `skipAd` dispatches nothing. -/
theorem C10_skippableState_invariant :
    Vpaid.VpaidNonLinear.attributes_.skippableState = false ∧
    Part0.VpaidNonLinear.attributes_.skippableState = false ∧
    (∀ ops : List Vpaid.Op,
      (Vpaid.runOps Vpaid.VpaidNonLinear ops).attributes_.skippableState =
        false ∧
      (Vpaid.skipAd (Vpaid.runOps Vpaid.VpaidNonLinear ops)).trace = []) ∧
    (∀ ops : List Part0.Op,
      (Part0.runOps Part0.VpaidNonLinear ops).attributes_.skippableState =
        false ∧
      (Part0.skipAd (Part0.runOps Part0.VpaidNonLinear ops)).trace = []) := by
  refine ⟨rfl, rfl, fun ops => ?_, fun ops => ?_⟩
  · have h : (Vpaid.runOps Vpaid.VpaidNonLinear ops).attributes_.skippableState
        = false := vpaidRunOps_skippableState ops Vpaid.VpaidNonLinear
    exact ⟨h, by simp [Vpaid.skipAd, h]⟩
  · have h : (Part0.runOps Part0.VpaidNonLinear ops).attributes_.skippableState
        = false := part0RunOps_skippableState ops Part0.VpaidNonLinear
    exact ⟨h, by simp [Part0.skipAd, h]⟩
